import Mathlib

/-!
Shallow embedding of src/src/toil_scripts/gatk_germline/germline.py
(GATK germline variant-calling Toil pipeline) and proofs about it.

The pipeline is a tree of Toil jobs:
  batch_start -> create_reference_index_hc -> create_reference_dict_hc
  -> spawn_batch_variant_calling -> (per sample) start -> [index] ->
  haplotype_caller -> genotype_gvcf -> (vqsr_snp -> apply_vqsr_snp)
  and in parallel (vqsr_indel -> apply_vqsr_indel).

Each job function receives a shared options namespace (input_args), a
dictionary of fileStore promises (shared_ids, keyed by logical filename),
materializes its inputs into a private temp working directory, runs one
docker_call, writes outputs back to the fileStore, and schedules its
children / follow-on.  The embedding below models:
  - the options namespace as the structure Config, and each job function
    assignment to it as an explicit Config-to-Config function;
  - the shared_ids dictionary bindings as per-stage lists of keys bound;
  - working-directory hydration (read_from_filestore_hc) as a function on
    the set of filenames already present, recording fetches performed;
  - the observable actions of a run (downloads, docker invocations,
    stderr diagnostics, final uploads or moves) as an Event trace;
  - manifest parsing with faithful models of the Python str helpers used
    (isspace, startswith, strip, split on tab).
-/

/-- Characters the Python str.isspace / str.strip family treats as
whitespace (space, tab, newline, vertical tab, form feed, carriage return). -/
def isPyWs (c : Char) : Bool :=
  c = ' ' || c = '\t' || c = '\n' || c = '\x0b' || c = '\x0c' || c = '\r'

/-- Python s.isspace(): true when s is nonempty and all characters are
whitespace. -/
def pyIsSpace (s : String) : Bool :=
  !s.data.isEmpty && s.data.all isPyWs

/-- Python s.startswith(p), modelled on the underlying character lists. -/
def pyStartsWith (s p : String) : Bool :=
  p.data.isPrefixOf s.data

/-- Python s.strip(): drop leading and trailing whitespace. -/
def pyStrip (s : String) : String :=
  String.mk (((s.data.dropWhile isPyWs).reverse.dropWhile isPyWs).reverse)

/-- Helper for pySplitTab: split a character list at every tab, the
accumulator holds the current field reversed. -/
def splitTabAux : List Char → List Char → List (List Char)
  | [], acc => [acc.reverse]
  | c :: cs, acc =>
    if c = '\t' then acc.reverse :: splitTabAux cs []
    else splitTabAux cs (c :: acc)

/-- Python s.split with separator tab: every tab is a field boundary and
empty fields are kept (the empty string splits to one empty field). -/
def pySplitTab (s : String) : List String :=
  (splitTabAux s.data []).map String.mk

/-- Python os.path.join for two components: an absolute second component
replaces the first, otherwise the two are joined with a slash unless the
first already ends in one (or is empty). -/
def pyPathJoin (a b : String) : String :=
  if pyStartsWith b "/" then b
  else if a = "" || a.endsWith "/" then a ++ b
  else a ++ "/" ++ b

/-- The shared options namespace threaded through every job
(argparse.Namespace built from the YAML config in the __main__ block,
plus the fields the pipeline assigns onto it as it descends). -/
structure Config where
  ref : String
  phase : String
  omni : String
  dbsnp : String
  hapmap : String
  mills : String
  output_dir : String
  suffix : String
  uuid : String
  bam_url : String
  ssec : Option String
  indexed : Bool
  sample : Option (String × String)
  manifest : String
  cpu_count : Nat
  memory : String
deriving DecidableEq

/-- Manifest parsing loop of spawn_batch_variant_calling
(germline.py:268-271): keep lines that are neither whitespace-only nor
starting with a hash mark, strip each and split it on tabs, in file
order. -/
def parse_manifest_lines (lines : List String) : List (List String) :=
  (lines.filter (fun l => !pyIsSpace l && !pyStartsWith l "#")).map
    (fun l => pySplitTab (pyStrip l))

/-- Output filename produced by haplotype_caller (germline.py:348):
uuid + ".raw.BOTH" + suffix + ".gvcf". -/
def hc_output (uuid suffix : String) : String :=
  uuid ++ ".raw.BOTH" ++ suffix ++ ".gvcf"

/-- Filename passed as the --variant argument by genotype_gvcf
(germline.py:409): uuid + ".raw.BOTH.gatk.gvcf". -/
def genotype_variant_arg (uuid : String) : String :=
  uuid ++ ".raw.BOTH.gatk.gvcf"

/-- Output filename of apply_vqsr_snp (germline.py:492):
uuid + ".HAPSNP.vqsr.SNP" + suffix + ".vcf". -/
def snp_output (uuid suffix : String) : String :=
  uuid ++ ".HAPSNP.vqsr.SNP" ++ suffix ++ ".vcf"

/-- Output filename of apply_vqsr_indel (germline.py:583):
uuid + ".HAPSNP.vqsr.INDEL" + suffix + ".vcf". -/
def indel_output (uuid suffix : String) : String :=
  uuid ++ ".HAPSNP.vqsr.INDEL" ++ suffix ++ ".vcf"

/-- read_from_filestore_hc (germline.py:135-147): for each filename in
order, if no file of that name is present in the working directory,
fetch the promise ids[filename] from the fileStore into the working
directory.  The first component of the result is the set of filenames
present afterwards, the second lists the (filename, handle) fetches
actually performed. -/
def read_from_filestore_hc (ids : String → Nat) :
    List String → List String → List String × List (String × Nat)
  | present, [] => (present, [])
  | present, f :: fs =>
    if f ∈ present then read_from_filestore_hc ids present fs
    else
      let r := read_from_filestore_hc ids (f :: present) fs
      (r.1, (f, ids f) :: r.2)

/-- return_input_paths (germline.py:95-115) has the same caching
behaviour: a filename already present in the working directory is not
fetched again; it additionally returns the joined paths. -/
def return_input_paths (ids : String → Nat) (work_dir : String)
    (present : List String) (filenames : List String) :
    (List String × List (String × Nat)) × List String :=
  (read_from_filestore_hc ids present filenames,
   filenames.map (fun f => pyPathJoin work_dir f))

/-- Jobs that start (germline.py:278-307) can schedule. -/
inductive JobCall where
  | downloadUrl (url : String) (filename : String)
  | indexJob
  | haplotypeCallerJob
deriving DecidableEq

/-- A scheduled edge: addChildJobFn or addFollowOnJobFn. -/
inductive Sched where
  | child (j : JobCall)
  | followOn (j : JobCall)
deriving DecidableEq

/-- Scheduling performed by start (germline.py:298-307): when ssec is
None a child download of the sample bam is scheduled (else nothing);
when indexed a child download of the sibling bai url and a follow-on
haplotype_caller are scheduled, otherwise a follow-on index job. -/
def start_sched (cfg : Config) (url : String) : List Sched :=
  (if cfg.ssec = none then [Sched.child (JobCall.downloadUrl url "toil.bam")] else [])
    ++ (if cfg.indexed then
          [Sched.child (JobCall.downloadUrl (url ++ ".bai") "toil.bam.bai"),
           Sched.followOn JobCall.haplotypeCallerJob]
        else [Sched.followOn JobCall.indexJob])

/-- Scheduling performed by index (germline.py:333): a child
haplotype_caller job. -/
def index_sched : List Sched :=
  [Sched.child JobCall.haplotypeCallerJob]

/-- Assignments batch_start (germline.py:173-175) performs on the shared
options object: sample, output_dir and suffix. -/
def batch_start_config (cfg : Config) (sample : Option (String × String))
    (output_dir suffix : String) : Config :=
  { cfg with sample := sample, output_dir := output_dir, suffix := suffix }

/-- Assignments start (germline.py:291-293) performs on the shared
options object: uuid and bam_url from the sample descriptor. -/
def start_config (cfg : Config) (sample : String × String) : Config :=
  { cfg with uuid := sample.1, bam_url := sample.2 }

/-- create_reference_index_hc (germline.py:185-211) performs no
assignment to the options object. -/
def create_reference_index_hc_config (cfg : Config) : Config := cfg

/-- create_reference_dict_hc (germline.py:214-241) performs no
assignment to the options object. -/
def create_reference_dict_hc_config (cfg : Config) : Config := cfg

/-- spawn_batch_variant_calling (germline.py:244-275) performs no
assignment to the options object. -/
def spawn_batch_variant_calling_config (cfg : Config) : Config := cfg

/-- index (germline.py:310-333) performs no assignment to the options
object. -/
def index_config (cfg : Config) : Config := cfg

/-- haplotype_caller (germline.py:336-386) performs no assignment to the
options object. -/
def haplotype_caller_config (cfg : Config) : Config := cfg

/-- genotype_gvcf (germline.py:389-433) performs no assignment to the
options object. -/
def genotype_gvcf_config (cfg : Config) : Config := cfg

/-- vqsr_snp (germline.py:436-473) performs no assignment to the options
object. -/
def vqsr_snp_config (cfg : Config) : Config := cfg

/-- apply_vqsr_snp (germline.py:476-512) performs no assignment to the
options object. -/
def apply_vqsr_snp_config (cfg : Config) : Config := cfg

/-- vqsr_indel (germline.py:530-565) performs no assignment to the
options object. -/
def vqsr_indel_config (cfg : Config) : Config := cfg

/-- apply_vqsr_indel (germline.py:568-603) performs no assignment to the
options object. -/
def apply_vqsr_indel_config (cfg : Config) : Config := cfg

/-- Keys batch_start (germline.py:176-181) binds in the shared_ids
dictionary: ref.fa first, then the zipped shared file names in order. -/
def batch_start_keys : List String :=
  ["ref.fa", "phase.vcf", "omni.vcf", "dbsnp.vcf", "hapmap.vcf", "mills.vcf"]

/-- Key create_reference_index_hc binds (germline.py:210). -/
def create_reference_index_hc_keys : List String := ["ref.fa.fai"]

/-- Key create_reference_dict_hc binds (germline.py:240). -/
def create_reference_dict_hc_keys : List String := ["ref.dict"]

/-- Keys start binds into its per-sample copy of shared_ids
(germline.py:299 under ssec None, germline.py:304 under indexed). -/
def start_keys (cfg : Config) : List String :=
  (if cfg.ssec = none then ["toil.bam"] else [])
    ++ (if cfg.indexed then ["toil.bam.bai"] else [])

/-- Key index binds (germline.py:332); the index job only runs on the
branch where start did not bind toil.bam.bai. -/
def index_keys : List String := ["toil.bam.bai"]

/-- Key haplotype_caller binds (germline.py:380): its gvcf output name. -/
def haplotype_caller_keys (cfg : Config) : List String :=
  [hc_output cfg.uuid cfg.suffix]

/-- Key genotype_gvcf binds (germline.py:429). -/
def genotype_gvcf_keys : List String := ["unified.raw.BOTH.gatk.vcf"]

/-- Keys vqsr_snp binds via write_to_filestore (germline.py:449, 472). -/
def vqsr_snp_keys : List String :=
  ["HAPSNP.recal", "HAPSNP.tranches", "HAPSNP.plots"]

/-- apply_vqsr_snp binds no key (germline.py:476-512 only uploads). -/
def apply_vqsr_snp_keys : List String := []

/-- Keys vqsr_indel binds via write_to_filestore (germline.py:542, 564). -/
def vqsr_indel_keys : List String :=
  ["HAPINDEL.recal", "HAPINDEL.tranches", "HAPINDEL.plots"]

/-- apply_vqsr_indel binds no key (germline.py:568-603 only uploads). -/
def apply_vqsr_indel_keys : List String := []

/-- Keys bound, in binding order, along the shared reference-preparation
lineage (batch_start, create_reference_index_hc,
create_reference_dict_hc; spawn_batch_variant_calling binds none). -/
def shared_lineage_keys : List String :=
  batch_start_keys ++ create_reference_index_hc_keys
    ++ create_reference_dict_hc_keys

/-- Keys bound along the per-sample part of a lineage up to and
including genotype_gvcf, for a config as updated by start: the start
bindings, the index binding when start scheduled an index job, then the
haplotype_caller and genotype_gvcf bindings. -/
def sample_prefix_keys (cfg : Config) : List String :=
  start_keys cfg ++ (if cfg.indexed then [] else index_keys)
    ++ haplotype_caller_keys cfg ++ genotype_gvcf_keys

/-- Keys bound along the SNP recalibration lineage of one sample
(shared lineage, then the per-sample copy made at start, then the SNP
branch). -/
def snp_lineage_keys (cfg : Config) : List String :=
  shared_lineage_keys ++ sample_prefix_keys cfg ++ vqsr_snp_keys
    ++ apply_vqsr_snp_keys

/-- Keys bound along the Indel recalibration lineage of one sample. -/
def indel_lineage_keys (cfg : Config) : List String :=
  shared_lineage_keys ++ sample_prefix_keys cfg ++ vqsr_indel_keys
    ++ apply_vqsr_indel_keys

/-- Observable actions of a pipeline run. -/
inductive Event where
  | download (url : String) (filename : String)
  | dockerRun (tool : String) (parameters : List String) (workDir : String)
  | stderrMsg (msg : String)
  | sink (filename : String) (dest : String)
deriving DecidableEq

/-- Docker image used by the samtools stages. -/
def samtools_image : String := "quay.io/ucsc_cgl/samtools"

/-- Docker image used by create_reference_dict_hc. -/
def picard_image : String := "quay.io/ucsc_cgl/picardtools"

/-- Docker image used by the GATK stages. -/
def gatk_image : String :=
  "quay.io/ucsc_cgl/gatk:3.5--dba6dae49156168a909c43330350c6161dc7ecc2"

/-- upload_or_move_hc (germline.py:515-526): both the s3am upload branch
and the local move branch place the named output file at the configured
destination; the embedding records either as one sink event. -/
def upload_or_move_hc (output_dir output : String) : Event :=
  Event.sink output output_dir

/-- create_reference_index_hc (germline.py:185-211): one samtools faidx
docker_call; no try block, so a failure propagates with no stderr
report. -/
def create_reference_index_hc_run (wd : String) (ok : Bool) :
    List Event × Bool :=
  ([Event.dockerRun samtools_image ["faidx", "ref.fa"] wd], ok)

/-- create_reference_dict_hc (germline.py:214-241): one picardtools
docker_call; no try block. -/
def create_reference_dict_hc_run (wd : String) (ok : Bool) :
    List Event × Bool :=
  ([Event.dockerRun picard_image
      ["CreateSequenceDictionary", "R=ref.fa", "O=ref.dict"] wd], ok)

/-- index (germline.py:310-333): one samtools index docker_call; no try
block. -/
def index_run (wd : String) (ok : Bool) : List Event × Bool :=
  ([Event.dockerRun samtools_image ["index", "toil.bam"] wd], ok)

/-- GATK command line built by haplotype_caller (germline.py:351-364). -/
def haplotype_caller_command (cfg : Config) : List String :=
  ["-U", "ALLOW_SEQ_DICT_INCOMPATIBILITY",
   "-nct", toString cfg.cpu_count,
   "-R", "ref.fa",
   "-T", "HaplotypeCaller",
   "--genotyping_mode", "Discovery",
   "--emitRefConfidence", "GVCF",
   "-I", "toil.bam",
   "-o", hc_output cfg.uuid cfg.suffix,
   "-variant_index_type", "LINEAR",
   "-variant_index_parameter", "128000",
   "--annotation", "QualByDepth",
   "--annotation", "DepthPerSampleHC",
   "--annotation", "FisherStrand",
   "--annotation", "ReadPosRankSumTest"]

/-- Message haplotype_caller writes to stderr when its docker_call
raises (germline.py:375-376). -/
def haplotype_caller_fail_msg (cfg : Config) (wd : String) : String :=
  "Running haplotype caller with "
    ++ String.intercalate " " (haplotype_caller_command cfg)
    ++ " in " ++ wd ++ " failed."

/-- haplotype_caller (germline.py:336-386): one GATK docker_call inside
a try block; on failure the exact command and working directory are
written to stderr and the exception is re-raised; on success the gvcf is
written to the fileStore and uploaded via upload_or_move_hc, then
genotype_gvcf is scheduled. -/
def haplotype_caller_run (cfg : Config) (wd : String) (ok : Bool) :
    List Event × Bool :=
  let ev := [Event.dockerRun gatk_image (haplotype_caller_command cfg) wd]
  if ok then
    (ev ++ [upload_or_move_hc cfg.output_dir (hc_output cfg.uuid cfg.suffix)],
     true)
  else
    (ev ++ [Event.stderrMsg (haplotype_caller_fail_msg cfg wd)], false)

/-- GATK command line built by genotype_gvcf (germline.py:405-412). -/
def genotype_gvcf_command (cfg : Config) : List String :=
  ["-U", "ALLOW_SEQ_DICT_INCOMPATIBILITY",
   "-nt", toString cfg.cpu_count,
   "-R", "ref.fa",
   "-T", "GenotypeGVCFs",
   "--variant", genotype_variant_arg cfg.uuid,
   "--out", "unified.raw.BOTH.gatk.vcf",
   "-stand_emit_conf", "10.0",
   "-stand_call_conf", "30.0"]

/-- Message genotype_gvcf writes to stderr when its docker_call raises
(germline.py:424-425). -/
def genotype_gvcf_fail_msg (cfg : Config) (wd : String) : String :=
  "Running GenotypeGVCFs with "
    ++ String.intercalate " " (genotype_gvcf_command cfg)
    ++ " in " ++ wd ++ " failed."

/-- genotype_gvcf (germline.py:389-433): one GATK docker_call inside a
try block reporting the command and working directory on failure; it
performs no upload itself and schedules the two vqsr branches. -/
def genotype_gvcf_run (cfg : Config) (wd : String) (ok : Bool) :
    List Event × Bool :=
  let ev := [Event.dockerRun gatk_image (genotype_gvcf_command cfg) wd]
  if ok then (ev, true)
  else (ev ++ [Event.stderrMsg (genotype_gvcf_fail_msg cfg wd)], false)

/-- GATK command line built by vqsr_snp (germline.py:450-463). -/
def vqsr_snp_command (cfg : Config) : List String :=
  ["-U", "ALLOW_SEQ_DICT_INCOMPATIBILITY",
   "-T", "VariantRecalibrator",
   "-R", "ref.fa",
   "-input", "unified.raw.BOTH.gatk.vcf",
   "-nt", toString cfg.cpu_count,
   "-resource:hapmap,known=false,training=true,truth=true,prior=15.0", "hapmap.vcf",
   "-resource:omni,known=false,training=true,truth=false,prior=12.0", "omni.vcf",
   "-resource:dbsnp,known=true,training=false,truth=false,prior=2.0", "dbsnp.vcf",
   "-resource:1000G,known=false,training=true,truth=false,prior=10.0", "phase.vcf",
   "-an", "QD", "-an", "DP", "-an", "FS", "-an", "ReadPosRankSum",
   "-mode", "SNP", "-minNumBad", "1000",
   "-recalFile", "HAPSNP.recal",
   "-tranchesFile", "HAPSNP.tranches",
   "-rscriptFile", "HAPSNP.plots"]

/-- vqsr_snp (germline.py:436-473): one GATK docker_call with no try
block, so a failure propagates without any stderr report. -/
def vqsr_snp_run (cfg : Config) (wd : String) (ok : Bool) :
    List Event × Bool :=
  ([Event.dockerRun gatk_image (vqsr_snp_command cfg) wd], ok)

/-- GATK command line built by apply_vqsr_snp (germline.py:493-502). -/
def apply_vqsr_snp_command (cfg : Config) : List String :=
  ["-U", "ALLOW_SEQ_DICT_INCOMPATIBILITY",
   "-T", "ApplyRecalibration",
   "-input", "unified.raw.BOTH.gatk.vcf",
   "-o", snp_output cfg.uuid cfg.suffix,
   "-R", "ref.fa",
   "-nt", "1",
   "-ts_filter_level", "99.0",
   "-tranchesFile", "HAPSNP.tranches",
   "-recalFile", "HAPSNP.recal",
   "-mode", "SNP"]

/-- apply_vqsr_snp (germline.py:476-512): one GATK docker_call with no
try block; on success the recalibrated SNP vcf is placed at the
configured output directory. -/
def apply_vqsr_snp_run (cfg : Config) (wd : String) (ok : Bool) :
    List Event × Bool :=
  let ev := [Event.dockerRun gatk_image (apply_vqsr_snp_command cfg) wd]
  if ok then
    (ev ++ [upload_or_move_hc cfg.output_dir (snp_output cfg.uuid cfg.suffix)],
     true)
  else (ev, false)

/-- GATK command line built by vqsr_indel (germline.py:543-555). -/
def vqsr_indel_command (cfg : Config) : List String :=
  ["-U", "ALLOW_SEQ_DICT_INCOMPATIBILITY",
   "-T", "VariantRecalibrator",
   "-R", "ref.fa",
   "-input", "unified.raw.BOTH.gatk.vcf",
   "-nt", toString cfg.cpu_count,
   "-resource:mills,known=true,training=true,truth=true,prior=12.0", "mills.vcf",
   "-an", "DP", "-an", "FS", "-an", "ReadPosRankSum",
   "-mode", "INDEL",
   "-minNumBad", "1000",
   "-recalFile", "HAPINDEL.recal",
   "-tranchesFile", "HAPINDEL.tranches",
   "-rscriptFile", "HAPINDEL.plots",
   "--maxGaussians", "4"]

/-- vqsr_indel (germline.py:530-565): one GATK docker_call with no try
block. -/
def vqsr_indel_run (cfg : Config) (wd : String) (ok : Bool) :
    List Event × Bool :=
  ([Event.dockerRun gatk_image (vqsr_indel_command cfg) wd], ok)

/-- GATK command line built by apply_vqsr_indel (germline.py:584-593). -/
def apply_vqsr_indel_command (cfg : Config) : List String :=
  ["-U", "ALLOW_SEQ_DICT_INCOMPATIBILITY",
   "-T", "ApplyRecalibration",
   "-input", "unified.raw.BOTH.gatk.vcf",
   "-o", indel_output cfg.uuid cfg.suffix,
   "-R", "ref.fa",
   "-nt", "1",
   "-ts_filter_level", "99.0",
   "-tranchesFile", "HAPINDEL.tranches",
   "-recalFile", "HAPINDEL.recal",
   "-mode", "INDEL"]

/-- apply_vqsr_indel (germline.py:568-603): one GATK docker_call with no
try block; on success the recalibrated Indel vcf is placed at the
configured output directory. -/
def apply_vqsr_indel_run (cfg : Config) (wd : String) (ok : Bool) :
    List Event × Bool :=
  let ev := [Event.dockerRun gatk_image (apply_vqsr_indel_command cfg) wd]
  if ok then
    (ev ++ [upload_or_move_hc cfg.output_dir (indel_output cfg.uuid cfg.suffix)],
     true)
  else (ev, false)

/-- Per-sample output subdirectory computed into a local variable of
start (germline.py:295-296) for non-s3 destinations; no later statement
reads it. -/
def start_subdir (cfg : Config) (uuid : String) : Option String :=
  if pyStartsWith cfg.output_dir "s3://" then none
  else some (pyPathJoin cfg.output_dir uuid)

/-- Download events produced by the children start schedules
(germline.py:298-304). -/
def start_download_events (cfg : Config) (url : String) : List Event :=
  (if cfg.ssec = none then [Event.download url "toil.bam"] else [])
    ++ (if cfg.indexed then [Event.download (url ++ ".bai") "toil.bam.bai"]
        else [])

/-- SNP recalibration branch of one sample: vqsr_snp, then, if it
succeeded, apply_vqsr_snp (germline.py:473). -/
def snp_branch (cfg : Config) (wd : Nat → String) (okVS okAS : Bool) :
    List Event :=
  let v := vqsr_snp_run cfg (wd 3) okVS
  if v.2 then v.1 ++ (apply_vqsr_snp_run cfg (wd 4) okAS).1 else v.1

/-- Indel recalibration branch of one sample: vqsr_indel, then, if it
succeeded, apply_vqsr_indel (germline.py:565). -/
def indel_branch (cfg : Config) (wd : Nat → String) (okVI okAI : Bool) :
    List Event :=
  let v := vqsr_indel_run cfg (wd 5) okVI
  if v.2 then v.1 ++ (apply_vqsr_indel_run cfg (wd 6) okAI).1 else v.1

/-- One per-sample chain (start through both recalibration branches),
linearized in dependency order with the SNP branch listed before the
Indel branch.  Temp working directories are opaque fresh names, modelled
by the assignment wd; the okX flags give the outcome of each stage's
docker_call, and a failed stage stops the chain (the exception
propagates to Toil, which schedules nothing further on that lineage). -/
def runSampleOks (cfg0 : Config) (uuid url : String) (wd : Nat → String)
    (okIdx okHC okG okVS okAS okVI okAI : Bool) : List Event :=
  let cfg := start_config cfg0 (uuid, url)
  let dl := start_download_events cfg url
  let idx : List Event × Bool :=
    if cfg.indexed then ([], true) else index_run (wd 0) okIdx
  if !idx.2 then dl ++ idx.1
  else
    let hc := haplotype_caller_run cfg (wd 1) okHC
    if !hc.2 then dl ++ idx.1 ++ hc.1
    else
      let g := genotype_gvcf_run cfg (wd 2) okG
      if !g.2 then dl ++ idx.1 ++ hc.1 ++ g.1
      else
        dl ++ idx.1 ++ hc.1 ++ g.1 ++ snp_branch cfg wd okVS okAS
          ++ indel_branch cfg wd okVI okAI

/-- A per-sample chain in which every stage succeeds. -/
def runSample (cfg : Config) (uuid url : String) (wd : Nat → String) :
    List Event :=
  runSampleOks cfg uuid url wd true true true true true true true

/-- The Output Sink invocations of a trace, as (filename, destination)
pairs in order. -/
def sinkEvents (es : List Event) : List (String × String) :=
  es.filterMap (fun e =>
    match e with
    | Event.sink f d => some (f, d)
    | _ => none)

/-- Whether a trace contains any stderr diagnostic. -/
def hasStderrReport (es : List Event) : Bool :=
  es.any (fun e =>
    match e with
    | Event.stderrMsg _ => true
    | _ => false)

/-- Number of docker invocations in a trace. -/
def dockerCount (es : List Event) : Nat :=
  (es.filter (fun e =>
    match e with
    | Event.dockerRun _ _ _ => true
    | _ => false)).length

/-- The nine job functions that invoke the external tool through
docker_call. -/
inductive StageId where
  | refIndex
  | refDict
  | indexBam
  | hc
  | geno
  | vqsrSnp
  | applySnp
  | vqsrIndel
  | applyIndel
deriving DecidableEq

/-- Dispatch to the per-stage run embedding. -/
def stageRun : StageId → Config → String → Bool → List Event × Bool
  | StageId.refIndex => fun _ wd ok => create_reference_index_hc_run wd ok
  | StageId.refDict => fun _ wd ok => create_reference_dict_hc_run wd ok
  | StageId.indexBam => fun _ wd ok => index_run wd ok
  | StageId.hc => haplotype_caller_run
  | StageId.geno => genotype_gvcf_run
  | StageId.vqsrSnp => vqsr_snp_run
  | StageId.applySnp => apply_vqsr_snp_run
  | StageId.vqsrIndel => vqsr_indel_run
  | StageId.applyIndel => apply_vqsr_indel_run

/-- The stages whose source wraps docker_call in a try block that writes
a diagnostic naming the command and working directory before re-raising
(germline.py:365-377 and 414-426); all others call docker_call bare. -/
def stage_reports_failure : StageId → Bool
  | StageId.hc => true
  | StageId.geno => true
  | _ => false

/-- Stderr message the reporting stages emit on failure. -/
def stage_fail_msg (s : StageId) (cfg : Config) (wd : String) : String :=
  match s with
  | StageId.hc => haplotype_caller_fail_msg cfg wd
  | StageId.geno => genotype_gvcf_fail_msg cfg wd
  | _ => ""

/-- A concrete configuration used by witnesses and counterexamples. -/
def cfgEx : Config :=
  { ref := "http://host/ref.fa"
    phase := "http://host/phase.vcf"
    omni := "http://host/omni.vcf"
    dbsnp := "http://host/dbsnp.vcf"
    hapmap := "http://host/hapmap.vcf"
    mills := "http://host/mills.vcf"
    output_dir := "/out"
    suffix := ".bqsr"
    uuid := "OLD"
    bam_url := ""
    ssec := none
    indexed := true
    sample := some ("S1", "u1")
    manifest := "manifest.tsv"
    cpu_count := 4
    memory := "15" }

/-- The gvcf filename always ends in ".gvcf". -/
lemma gvcf_suffix_hc (uuid suffix : String) :
    ".gvcf".data <:+ (hc_output uuid suffix).data := by
  simp only [hc_output, String.data_append, List.append_assoc]
  rw [← List.append_assoc, ← List.append_assoc]
  exact List.suffix_append _ _

/-- The gvcf filename is distinct from every string not ending in
".gvcf". -/
lemma hc_output_not_mem (uuid suffix : String) (l : List String)
    (h : l.all (fun w => !(".gvcf".data.isSuffixOf w.data)) = true) :
    hc_output uuid suffix ∉ l := by
  intro hm
  have hw := List.all_eq_true.mp h _ hm
  have ht : ".gvcf".data.isSuffixOf (hc_output uuid suffix).data = true :=
    List.isSuffixOf_iff_suffix.mpr (gvcf_suffix_hc uuid suffix)
  rw [ht] at hw
  simp at hw

/-- A list with one interesting element spliced into fixed
surroundings is duplicate-free. -/
lemma nodup_with_mid (l₁ l₂ : List String) (x : String)
    (h₁ : (l₁ ++ l₂).Nodup) (h₂ : x ∉ l₁ ++ l₂) :
    (l₁ ++ x :: l₂).Nodup := by
  rw [List.nodup_middle, List.nodup_cons]
  exact ⟨h₂, h₁⟩

/-- C4: Parsing a manifest consisting of a comment line, a blank line,
and the two data lines A tab urlA and B tab urlB yields exactly the
sample sequence [[A, urlA], [B, urlB]]: blank lines and lines starting
with a hash mark are skipped, every remaining line is stripped and split
on tabs, in file order. -/
theorem manifest_parse_example :
    parse_manifest_lines ["# header\n", "\n", "A\turlA\n", "B\turlB\n"]
      = [["A", "urlA"], ["B", "urlB"]] := by decide

/-- C9: the gVCF filename genotype_gvcf stages into its working
directory (the file haplotype_caller produced) coincides with the
filename its GenotypeGVCFs command passes as --variant exactly when the
configured suffix equals ".gatk"; for every other suffix the two
differ. -/
theorem genotype_variant_filename_mismatch (uuid suffix : String) :
    hc_output uuid suffix = genotype_variant_arg uuid ↔ suffix = ".gatk" := by
  constructor
  · intro h
    have hd := congrArg String.data h
    simp only [hc_output, genotype_variant_arg, String.data_append,
      List.append_assoc] at hd
    have h1 := List.append_cancel_left hd
    have e : ['.', 'r', 'a', 'w', '.', 'B', 'O', 'T', 'H', '.', 'g', 'a', 't',
          'k', '.', 'g', 'v', 'c', 'f']
        = ['.', 'r', 'a', 'w', '.', 'B', 'O', 'T', 'H']
          ++ (['.', 'g', 'a', 't', 'k'] ++ ['.', 'g', 'v', 'c', 'f']) := by
      decide
    rw [e] at h1
    have h2 := List.append_cancel_left h1
    have h3 := List.append_cancel_right h2
    have h4 : suffix = String.mk ['.', 'g', 'a', 't', 'k'] :=
      congrArg String.mk h3
    rw [h4]
  · intro h
    subst h
    rw [hc_output, genotype_variant_arg, String.append_assoc,
      String.append_assoc]
    exact congrArg (uuid ++ ·) (by decide :
      ".raw.BOTH" ++ (".gatk" ++ ".gvcf") = ".raw.BOTH.gatk.gvcf")

/-- Fixed keys bound before the gvcf key on a lineage where toil.bam is
downloaded by start. -/
def pre_keys_bam : List String :=
  ["ref.fa", "phase.vcf", "omni.vcf", "dbsnp.vcf", "hapmap.vcf", "mills.vcf",
   "ref.fa.fai", "ref.dict", "toil.bam", "toil.bam.bai"]

/-- Fixed keys bound before the gvcf key on a lineage where ssec is set
and no toil.bam download is scheduled. -/
def pre_keys_nobam : List String :=
  ["ref.fa", "phase.vcf", "omni.vcf", "dbsnp.vcf", "hapmap.vcf", "mills.vcf",
   "ref.fa.fai", "ref.dict", "toil.bam.bai"]

/-- Fixed keys bound after the gvcf key on the SNP lineage. -/
def post_keys_snp : List String :=
  ["unified.raw.BOTH.gatk.vcf", "HAPSNP.recal", "HAPSNP.tranches",
   "HAPSNP.plots"]

/-- Fixed keys bound after the gvcf key on the Indel lineage. -/
def post_keys_indel : List String :=
  ["unified.raw.BOTH.gatk.vcf", "HAPINDEL.recal", "HAPINDEL.tranches",
   "HAPINDEL.plots"]

/-- C3: within one workflow run, no lineage binds the same shared_ids
key twice: the key lists bound in order along the shared
reference-preparation lineage and along each per-sample recalibration
lineage are duplicate-free, for every configuration (in particular for
every sample uuid and suffix). -/
theorem lineage_keys_nodup (cfg : Config) :
    shared_lineage_keys.Nodup ∧ (snp_lineage_keys cfg).Nodup
      ∧ (indel_lineage_keys cfg).Nodup := by
  obtain ⟨r, p, o, d, hm, mi, od, sfx, uu, bu, ss, ix, sa, ma, cp, me⟩ := cfg
  refine ⟨by decide, ?_, ?_⟩
  · cases ss <;> cases ix <;>
      first
      | exact nodup_with_mid pre_keys_bam post_keys_snp _ (by decide)
          (hc_output_not_mem _ _ _ (by decide))
      | exact nodup_with_mid pre_keys_nobam post_keys_snp _ (by decide)
          (hc_output_not_mem _ _ _ (by decide))
  · cases ss <;> cases ix <;>
      first
      | exact nodup_with_mid pre_keys_bam post_keys_indel _ (by decide)
          (hc_output_not_mem _ _ _ (by decide))
      | exact nodup_with_mid pre_keys_nobam post_keys_indel _ (by decide)
          (hc_output_not_mem _ _ _ (by decide))

/-- Files present in the working directory are still present after
hydration. -/
lemma rffs_present_subset (ids : String → Nat) (fs : List String) :
    ∀ present, present ⊆ (read_from_filestore_hc ids present fs).1 := by
  induction fs with
  | nil => intro present x hx; simpa [read_from_filestore_hc] using hx
  | cons f fs ih =>
    intro present x hx
    by_cases hf : f ∈ present
    · simp only [read_from_filestore_hc]
      rw [if_pos hf]
      exact ih present hx
    · simp only [read_from_filestore_hc]
      rw [if_neg hf]
      exact ih (f :: present) (List.mem_cons_of_mem _ hx)

/-- Every requested file is present after hydration. -/
lemma rffs_mem_result (ids : String → Nat) (fs : List String) :
    ∀ present f, f ∈ fs → f ∈ (read_from_filestore_hc ids present fs).1 := by
  induction fs with
  | nil => intro present f hf; cases hf
  | cons g gs ih =>
    intro present f hf
    by_cases hg : g ∈ present
    · simp only [read_from_filestore_hc]
      rw [if_pos hg]
      rcases List.mem_cons.mp hf with rfl | hf2
      · exact rffs_present_subset ids gs present hg
      · exact ih present f hf2
    · simp only [read_from_filestore_hc]
      rw [if_neg hg]
      rcases List.mem_cons.mp hf with rfl | hf2
      · exact rffs_present_subset ids gs (f :: present)
          (List.mem_cons_self f present)
      · exact ih (g :: present) f hf2

/-- Hydration fetches nothing when every requested file is already
present. -/
lemma rffs_no_fetch (ids : String → Nat) (fs : List String) :
    ∀ present, (∀ g ∈ fs, g ∈ present) →
      read_from_filestore_hc ids present fs = (present, []) := by
  induction fs with
  | nil => intro present _; rfl
  | cons f fs ih =>
    intro present h
    simp only [read_from_filestore_hc]
    rw [if_pos (h f (List.mem_cons_self f fs))]
    exact ih present (fun g hg => h g (List.mem_cons_of_mem _ hg))

/-- The filenames hydration fetches are pairwise distinct and were not
present beforehand. -/
lemma rffs_fetch_fresh (ids : String → Nat) (fs : List String) :
    ∀ present,
      ((read_from_filestore_hc ids present fs).2.map Prod.fst).Nodup
      ∧ ∀ g ∈ (read_from_filestore_hc ids present fs).2.map Prod.fst,
          g ∉ present := by
  induction fs with
  | nil =>
    intro present
    exact ⟨by simp [read_from_filestore_hc], by simp [read_from_filestore_hc]⟩
  | cons f fs ih =>
    intro present
    by_cases hf : f ∈ present
    · simp only [read_from_filestore_hc]
      rw [if_pos hf]
      exact ih present
    · simp only [read_from_filestore_hc]
      rw [if_neg hf]
      obtain ⟨hnd, hfr⟩ := ih (f :: present)
      constructor
      · show (((f, ids f)
            :: (read_from_filestore_hc ids (f :: present) fs).2).map
              Prod.fst).Nodup
        simp only [List.map_cons]
        rw [List.nodup_cons]
        exact ⟨fun hmem => (hfr f hmem) (List.mem_cons_self f present), hnd⟩
      · intro g hg
        show g ∉ present
        simp only [List.map_cons, List.mem_cons] at hg
        rcases hg with rfl | hg2
        · exact hf
        · exact fun hp => hfr g hg2 (List.mem_cons_of_mem _ hp)

/-- C5: hydration is idempotent.  For any working directory contents,
artifact map and requested filename: hydrating twice performs the fetch
at most once in total, the file is present after either call, and a file
already present is never fetched. -/
theorem hydrate_idempotent (ids : String → Nat) (present fs : List String)
    (f : String) (hf : f ∈ fs) :
    ((read_from_filestore_hc ids present fs).2.map Prod.fst).count f
        + ((read_from_filestore_hc ids
            (read_from_filestore_hc ids present fs).1 fs).2.map
              Prod.fst).count f ≤ 1
    ∧ f ∈ (read_from_filestore_hc ids present fs).1
    ∧ f ∈ (read_from_filestore_hc ids
        (read_from_filestore_hc ids present fs).1 fs).1
    ∧ (f ∈ present →
        f ∉ (read_from_filestore_hc ids present fs).2.map Prod.fst) := by
  have h2 : read_from_filestore_hc ids
      (read_from_filestore_hc ids present fs).1 fs
      = ((read_from_filestore_hc ids present fs).1, []) :=
    rffs_no_fetch ids fs _ (fun g hg => rffs_mem_result ids fs present g hg)
  obtain ⟨hnd, hfr⟩ := rffs_fetch_fresh ids fs present
  refine ⟨?_, rffs_mem_result ids fs present f hf, ?_, ?_⟩
  · rw [h2]
    simp only [List.map_nil, List.count_nil, Nat.add_zero]
    exact List.nodup_iff_count_le_one.mp hnd f
  · rw [h2]
    exact rffs_mem_result ids fs present f hf
  · intro hp hmem
    exact hfr f hmem hp

/-- Witness for hydrate_idempotent at a concrete input. -/
theorem hydrate_idempotent_witness :
    "ref.fa" ∈ (["ref.fa"] : List String)
    ∧ (((read_from_filestore_hc (fun _ => 0) [] ["ref.fa"]).2.map
          Prod.fst).count "ref.fa"
        + ((read_from_filestore_hc (fun _ => 0)
            (read_from_filestore_hc (fun _ => 0) [] ["ref.fa"]).1
              ["ref.fa"]).2.map Prod.fst).count "ref.fa" ≤ 1
      ∧ "ref.fa" ∈ (read_from_filestore_hc (fun _ => 0) [] ["ref.fa"]).1
      ∧ "ref.fa" ∈ (read_from_filestore_hc (fun _ => 0)
          (read_from_filestore_hc (fun _ => 0) [] ["ref.fa"]).1
            ["ref.fa"]).1
      ∧ ("ref.fa" ∈ ([] : List String) →
          "ref.fa" ∉ (read_from_filestore_hc (fun _ => 0) []
            ["ref.fa"]).2.map Prod.fst)) :=
  ⟨by decide, hydrate_idempotent (fun _ => 0) [] ["ref.fa"] "ref.fa"
    (by decide)⟩

/-- C2 (amended): the shared options object is mutated exactly by
batch_start (sample, output_dir, suffix) and start (uuid, bam_url);
every other pipeline stage performs no assignment and returns the
configuration it received unchanged. -/
theorem config_mutation_only_batch_start_and_start (cfg : Config)
    (sample : Option (String × String)) (out sfx : String)
    (s : String × String) :
    batch_start_config cfg sample out sfx
        = { cfg with sample := sample, output_dir := out, suffix := sfx }
    ∧ start_config cfg s = { cfg with uuid := s.1, bam_url := s.2 }
    ∧ create_reference_index_hc_config cfg = cfg
    ∧ create_reference_dict_hc_config cfg = cfg
    ∧ spawn_batch_variant_calling_config cfg = cfg
    ∧ index_config cfg = cfg
    ∧ haplotype_caller_config cfg = cfg
    ∧ genotype_gvcf_config cfg = cfg
    ∧ vqsr_snp_config cfg = cfg
    ∧ apply_vqsr_snp_config cfg = cfg
    ∧ vqsr_indel_config cfg = cfg
    ∧ apply_vqsr_indel_config cfg = cfg :=
  ⟨rfl, rfl, rfl, rfl, rfl, rfl, rfl, rfl, rfl, rfl, rfl, rfl⟩

/-- C2 counterexample: the stage function start does mutate the
configuration object it receives (it assigns uuid and bam_url), so the
configuration is not identical after the stage runs. -/
theorem config_mutated_by_start :
    start_config cfgEx ("S1", "u1") ≠ cfgEx := by decide

/-- C6: when the indexed flag is set, start schedules a child download
of the index from the sibling url (sample url plus ".bai") and proceeds
straight to variant calling as its follow-on, scheduling no indexing
node; otherwise it inserts the indexing node as its follow-on (and no
direct jump to variant calling), and the indexing node schedules
variant calling as its child. -/
theorem index_branch (cfg : Config) (url : String) :
    (cfg.indexed = true →
       Sched.child (JobCall.downloadUrl (url ++ ".bai") "toil.bam.bai")
           ∈ start_sched cfg url
       ∧ Sched.followOn JobCall.haplotypeCallerJob ∈ start_sched cfg url
       ∧ Sched.followOn JobCall.indexJob ∉ start_sched cfg url)
    ∧ (cfg.indexed = false →
       Sched.followOn JobCall.indexJob ∈ start_sched cfg url
       ∧ Sched.followOn JobCall.haplotypeCallerJob ∉ start_sched cfg url
       ∧ Sched.child JobCall.haplotypeCallerJob ∈ index_sched) := by
  cases hs : cfg.ssec <;>
    refine ⟨fun hi => ?_, fun hi => ?_⟩ <;>
      simp [start_sched, index_sched, hi, hs]

/-- Witness for index_branch at concrete configurations on both sides
of the flag. -/
theorem index_branch_witness :
    Sched.child (JobCall.downloadUrl ("u1" ++ ".bai") "toil.bam.bai")
        ∈ start_sched cfgEx "u1"
    ∧ Sched.followOn JobCall.indexJob
        ∈ start_sched { cfgEx with indexed := false } "u1" :=
  ⟨((index_branch cfgEx "u1").1 rfl).1,
   ((index_branch { cfgEx with indexed := false } "u1").2 rfl).1⟩

/-- A concrete configuration with an encryption key set. -/
def cfgSsec : Config := { cfgEx with ssec := some "key" }

/-- C7: when an encryption key is set (ssec is not None), start silently
drops the sample download: its schedule is exactly the indexed branch
outcome with no download child for the sample bam under any url, no
alternate encrypted-fetch path, and no error (the schedule is still
produced). -/
theorem ssec_drops_bam_download (cfg : Config) (url k : String)
    (hk : cfg.ssec = some k) :
    start_sched cfg url
        = (if cfg.indexed then
             [Sched.child (JobCall.downloadUrl (url ++ ".bai") "toil.bam.bai"),
              Sched.followOn JobCall.haplotypeCallerJob]
           else [Sched.followOn JobCall.indexJob])
    ∧ ∀ u, Sched.child (JobCall.downloadUrl u "toil.bam")
        ∉ start_sched cfg url := by
  cases hi : cfg.indexed <;>
    constructor <;>
      simp [start_sched, hk, hi]

/-- Witness for ssec_drops_bam_download at a concrete configuration. -/
theorem ssec_drops_bam_download_witness :
    cfgSsec.ssec = some "key"
    ∧ Sched.child (JobCall.downloadUrl "u1" "toil.bam")
        ∉ start_sched cfgSsec "u1" :=
  ⟨rfl, (ssec_drops_bam_download cfgSsec "u1" "key" rfl).2 "u1"⟩

/-- On an all-success run, the per-sample chain performs exactly three
sink invocations: the raw gvcf upload from haplotype_caller, then the
recalibrated SNP vcf, then the recalibrated Indel vcf, all placed at the
configured output directory. -/
lemma runSample_sinks (cfg : Config) (uuid url : String)
    (wd : Nat → String) :
    sinkEvents (runSample cfg uuid url wd)
      = [(hc_output uuid cfg.suffix, cfg.output_dir),
         (snp_output uuid cfg.suffix, cfg.output_dir),
         (indel_output uuid cfg.suffix, cfg.output_dir)] := by
  obtain ⟨r, p, o, d, hm, mi, od, sfx, uu, bu, ss, ix, sa, ma, cp, me⟩ := cfg
  cases ss <;> cases ix <;> rfl

/-- C1 (amended): a fully successful per-sample chain produces exactly
three Output Sink invocations, not two: the raw gvcf placed by
haplotype_caller, the SNP-recalibrated vcf and the Indel-recalibrated
vcf, each filename embedding the sample uuid and the configured
suffix. -/
theorem sample_chain_sink_invocations (cfg : Config) (uuid url : String)
    (wd : Nat → String) :
    sinkEvents (runSample cfg uuid url wd)
        = [(hc_output uuid cfg.suffix, cfg.output_dir),
           (snp_output uuid cfg.suffix, cfg.output_dir),
           (indel_output uuid cfg.suffix, cfg.output_dir)]
    ∧ snp_output uuid cfg.suffix
        = uuid ++ ".HAPSNP.vqsr.SNP" ++ cfg.suffix ++ ".vcf"
    ∧ indel_output uuid cfg.suffix
        = uuid ++ ".HAPSNP.vqsr.INDEL" ++ cfg.suffix ++ ".vcf" :=
  ⟨runSample_sinks cfg uuid url wd, rfl, rfl⟩

/-- C1 counterexample: at a concrete successful run for sample S1 the
number of sink invocations is three, not the claimed two (the extra one
is the raw gvcf upload at the end of haplotype_caller). -/
theorem sample_chain_sink_count_not_two :
    (sinkEvents (runSample cfgEx "S1" "u1" (fun _ => "/wd"))).length = 3
    ∧ (sinkEvents (runSample cfgEx "S1" "u1" (fun _ => "/wd"))).length
        ≠ 2 := by
  constructor
  · rw [runSample_sinks]
    rfl
  · rw [runSample_sinks]
    decide

/-- Joining a nonempty, non-absolute component onto a directory yields a
strictly longer path, hence a different one. -/
lemma pyPathJoin_ne (a b : String) (hb : b ≠ "")
    (hs : pyStartsWith b "/" = false) : pyPathJoin a b ≠ a := by
  intro h
  have h1 : (if a = "" || a.endsWith "/" then a ++ b else a ++ "/" ++ b)
      = a := by
    simpa [pyPathJoin, hs] using h
  have hb0 : b.length ≠ 0 := by
    intro h0
    exact hb (String.ext (List.length_eq_zero.mp h0))
  split at h1
  · have := congrArg String.length h1
    rw [String.length_append] at this
    omega
  · have := congrArg String.length h1
    rw [String.length_append, String.length_append] at this
    have h2 : ("/" : String).length = 1 := rfl
    omega

/-- C10: the per-sample output subdirectory start computes (the
configured output directory joined with the sample uuid) is never the
destination of any sink invocation: every placement in the full chain
goes directly to the shared configured output directory, so all samples
land in the same directory. -/
theorem per_sample_subdir_unused (cfg : Config) (uuid url : String)
    (wd : Nat → String) (h1 : uuid ≠ "")
    (h2 : pyStartsWith uuid "/" = false)
    (h3 : pyStartsWith cfg.output_dir "s3://" = false) :
    (sinkEvents (runSample cfg uuid url wd)).map Prod.snd
        = [cfg.output_dir, cfg.output_dir, cfg.output_dir]
    ∧ ∀ j, start_subdir cfg uuid = some j →
        j ∉ (sinkEvents (runSample cfg uuid url wd)).map Prod.snd := by
  constructor
  · rw [runSample_sinks]
    rfl
  · intro j hj hmem
    rw [runSample_sinks] at hmem
    simp only [List.map_cons, List.map_nil, List.mem_cons,
      List.not_mem_nil, or_false] at hmem
    rw [start_subdir, h3] at hj
    simp only [Bool.false_eq_true, if_false, Option.some.injEq] at hj
    have hne := pyPathJoin_ne cfg.output_dir uuid h1 h2
    subst hj
    rcases hmem with h | h | h <;> exact hne h

/-- Witness for per_sample_subdir_unused at a concrete run. -/
theorem per_sample_subdir_unused_witness :
    ("S1" : String) ≠ ""
    ∧ pyStartsWith "S1" "/" = false
    ∧ pyStartsWith cfgEx.output_dir "s3://" = false
    ∧ (sinkEvents (runSample cfgEx "S1" "u1" (fun _ => "/wd"))).map Prod.snd
        = [cfgEx.output_dir, cfgEx.output_dir, cfgEx.output_dir] :=
  ⟨by decide, by decide, by decide,
   (per_sample_subdir_unused cfgEx "S1" "u1" (fun _ => "/wd") (by decide)
     (by decide) (by decide)).1⟩

/-- C8 (amended): every tool invocation failure is fatal and never
retried: each of the nine docker stages runs its external command
exactly once whether or not it fails, propagates the failure, and the
chain schedules nothing further after a failed haplotype_caller (no sink
invocation ever happens on such a run); only the haplotype_caller and
genotype_gvcf stages additionally report the exact command line and
working directory to stderr before propagating. -/
theorem invocation_failure_fatal_unretried (cfg : Config) (wd : String)
    (s : StageId) (uuid url : String) (wdf : Nat → String)
    (okG okVS okAS okVI okAI : Bool) :
    dockerCount (stageRun s cfg wd true).1 = 1
    ∧ dockerCount (stageRun s cfg wd false).1 = 1
    ∧ (stageRun s cfg wd false).2 = false
    ∧ hasStderrReport (stageRun s cfg wd false).1 = stage_reports_failure s
    ∧ (stage_reports_failure s = true →
        Event.stderrMsg (stage_fail_msg s cfg wd)
          ∈ (stageRun s cfg wd false).1)
    ∧ sinkEvents (runSampleOks cfg uuid url wdf true false okG okVS okAS
        okVI okAI) = [] := by
  obtain ⟨r, p, o, d, hm, mi, od, sfx, uu, bu, ss, ix, sa, ma, cp, me⟩ := cfg
  refine ⟨?_, ?_, ?_, ?_, ?_, ?_⟩
  · cases s <;> rfl
  · cases s <;> rfl
  · cases s <;> rfl
  · cases s <;> rfl
  · cases s <;> intro h
    case hc => exact List.mem_cons_of_mem _ (List.mem_cons_self _ _)
    case geno => exact List.mem_cons_of_mem _ (List.mem_cons_self _ _)
    all_goals exact Bool.noConfusion h
  · cases ss <;> cases ix <;> rfl

/-- Witness for invocation_failure_fatal_unretried: the reporting clause
discharged for haplotype_caller at a concrete configuration. -/
theorem invocation_failure_witness :
    stage_reports_failure StageId.hc = true
    ∧ Event.stderrMsg (stage_fail_msg StageId.hc cfgEx "/wd")
        ∈ (stageRun StageId.hc cfgEx "/wd" false).1 :=
  ⟨rfl,
   (invocation_failure_fatal_unretried cfgEx "/wd" StageId.hc "S1" "u1"
     (fun _ => "/wd") true true true true true).2.2.2.2.1 rfl⟩

/-- C8 counterexample: vqsr_snp invokes the external tool with no try
block, so its failure, though fatal and unretried, produces no stderr
report of the command line and working directory, contradicting the
claim that every stage reports before propagating. -/
theorem vqsr_snp_failure_unreported :
    (stageRun StageId.vqsrSnp cfgEx "/wd" false).2 = false
    ∧ hasStderrReport (stageRun StageId.vqsrSnp cfgEx "/wd" false).1 = false
    ∧ dockerCount (stageRun StageId.vqsrSnp cfgEx "/wd" false).1 = 1 :=
  ⟨rfl, rfl, rfl⟩
